import Mathlib

/-!
Verification of the EdgeLink API client scripts.

The embedding models the Python clients in `edgelink_api_client.py`
(namespace `ELink.Api`), `edgelink_full_features_client.py` (namespace
`ELink.Full`) and `examples/python_api_client.py` (namespace `ELink.Ex`).
HTTP traffic is modelled by passing each operation the outcome of the
network call it issues (`NetOutcome`), and every operation returns the
post-call client state, the list of HTTP requests it issued, and an
observable outcome (`OpOutcome`).
-/

namespace ELink

/-- JSON values, the shape of request and response bodies. -/
inductive Jv where
  | null : Jv
  | bool (b : Bool) : Jv
  | num (n : Int) : Jv
  | str (s : String) : Jv
  | arr (items : List Jv) : Jv
  | obj (fields : List (String × Jv)) : Jv

/-- Dictionary lookup in an association list, first match wins. -/
def lookupJv : List (String × Jv) → String → Option Jv
  | [], _ => none
  | (k, v) :: rest, key => if k == key then some v else lookupJv rest key

/-- Lookup `d[key]` / `d.get(key)` on a JSON value: a lookup when it is an object,
absent otherwise (Python would raise on a non-dict; both are modelled as
a missing key by the callers below). -/
def Jv.get : Jv → String → Option Jv
  | .obj fields, key => lookupJv fields key
  | _, _ => none

/-- Python truthiness of a JSON value (`if x:`). -/
def Jv.truthy : Jv → Bool
  | .null => false
  | .bool b => b
  | .num n => n != 0
  | .str s => s != ""
  | .arr items => !items.isEmpty
  | .obj fields => !fields.isEmpty

/-- The string Python interpolates for a JSON value (`str(x)`), used when a
stored token is placed into an f-string.  Scalar cases follow Python
exactly; composite values are rendered structurally. -/
def Jv.render : Jv → String
  | .null => "None"
  | .bool true => "True"
  | .bool false => "False"
  | .num n => toString n
  | .str s => s
  | .arr items => "[" ++ String.intercalate ", " (items.attach.map fun x => Jv.render x.1) ++ "]"
  | .obj fields => "\x7b" ++ String.intercalate ", "
      (fields.attach.map fun kv => kv.1.1 ++ ": " ++ Jv.render kv.1.2) ++ "\x7d"
termination_by v => sizeOf v
decreasing_by
  all_goals simp_wf
  · have h := List.sizeOf_lt_of_mem x.2
    omega
  · rcases kv with ⟨⟨k, v⟩, hm⟩
    have h := List.sizeOf_lt_of_mem hm
    simp only [Prod.mk.sizeOf_spec] at h
    simp only []
    omega

/-- Conversion `Jv.ofOptStr` is how an `Optional[str]` argument is serialized into a
JSON body: `None` becomes JSON `null`. -/
def Jv.ofOptStr : Option String → Jv
  | none => Jv.null
  | some s => Jv.str s

/-- Python truthiness of an `Optional[str]` field (`if x:`): `None` and the
empty string are falsy. -/
def truthyS : Option String → Bool
  | none => false
  | some s => !(s == "")

/-- Python `a or b` on two `Optional[str]` values: returns `a` when `a` is
truthy, else `b`. -/
def pyOrS (a b : Option String) : Option String :=
  if truthyS a then a else b

/-- The mutable state of an `EdgeLinkClient` instance: the fields set in
`__init__` (`base_url` is the constant `BASE_URL` and is omitted). -/
structure Client where
  api_key : Option String
  jwt_token : Option String
  email : Option String
  password : Option String
deriving Repr, DecidableEq

/-- An HTTP response as the `requests` library hands it back.
`jsonBody = some j` means `response.json()` returns `j`; `jsonBody = none`
means the body is not valid JSON, so `response.json()` raises.
`text` is `response.text`. -/
structure HttpResponse where
  status : Nat
  jsonBody : Option Jv
  text : String := ""

/-- Outcome of the one network call an operation issues: either the
`requests` library raises (connection error, timeout, ...) with the given
message, or a response comes back. -/
inductive NetOutcome where
  | raise (msg : String)
  | resp (r : HttpResponse)

/-- Python exceptions the client code can let escape. -/
inductive PyExn where
  | requestsError (msg : String)
  | jsonDecodeError
  | keyError (k : String)
deriving Repr, DecidableEq

/-- Record of one HTTP request issued (method, endpoint appended to
`BASE_URL`, the headers sent, and the JSON or raw body, if any). -/
structure HttpRequest where
  method : String
  endpoint : String
  headers : List (String × String)
  jsonBody : Option Jv := none
  rawBody : Option String := none

/-- What the failure branch of an operation surfaces in its console
diagnostics besides the status code. -/
inductive Diag where
  | noBody
  | jsonOf (j : Jv)
  | textOf (t : String)

/-- Observable outcome of one client method call.
`ok v`: the method returned the value `v` (for methods returning `True`,
`v` is `()`).
`failed status d`: the method printed a failure diagnostic naming `status`
(plus `d`) and returned the failure sentinel (`None` / `False`).
`refused`: the method returned `None` from a precondition check before
issuing any HTTP request.
`raised e`: an exception propagated out of the method uncaught. -/
inductive OpOutcome (α : Type) where
  | ok (v : α)
  | failed (status : Nat) (d : Diag)
  | refused
  | raised (e : PyExn)

/-- Classifier: is the outcome an application-level HTTP-status failure? -/
def OpOutcome.isHttpFailure : OpOutcome α → Bool
  | .failed _ _ => true
  | _ => false

/-- Classifier: is the outcome a propagated transport-level exception? -/
def OpOutcome.isTransportError : OpOutcome α → Bool
  | .raised (.requestsError _) => true
  | _ => false

/-- Result of running one client method: post-call client state, the HTTP
requests issued (in order), and the observable outcome. -/
structure OpRun (α : Type) where
  state : Client
  requests : List HttpRequest
  outcome : OpOutcome α

/-- First-match lookup of a header value in a header list. -/
def lookupHeader (hs : List (String × String)) (key : String) : Option String :=
  (hs.find? (fun kv => kv.1 == key)).map (fun kv => kv.2)

/-- Step of `payload.update(kwargs)` on one key: overwrite in place if present,
else append. -/
def dictSet (d : List (String × Jv)) (key : String) (v : Jv) : List (String × Jv) :=
  if d.any (fun kv => kv.1 == key) then
    d.map (fun kv => if kv.1 == key then (key, v) else kv)
  else
    d ++ [(key, v)]

/-- Python `dict.update`: apply every key of `updates` to `d` in order. -/
def dictUpdate (d : List (String × Jv)) (updates : List (String × Jv)) : List (String × Jv) :=
  updates.foldl (fun acc kv => dictSet acc kv.1 kv.2) d

namespace Api

/-- Model of `EdgeLinkClient._get_headers` in `edgelink_api_client.py`:
`token = self.api_key or self.jwt_token`; start from a dict with
`Content-Type: application/json`; if the token is truthy add
`Authorization: Bearer <token>`. -/
def get_headers (c : Client) : List (String × String) :=
  let token := pyOrS c.api_key c.jwt_token
  let headers := [("Content-Type", "application/json")]
  if truthyS token then
    headers ++ [("Authorization", "Bearer " ++ token.getD "")]
  else
    headers

/-- Model of `EdgeLinkClient.login` in `edgelink_api_client.py`.  Resolves the
email/password arguments against the stored ones with Python `or`, posts
them to `/auth/login` with an explicit `Content-Type`-only header dict
(so no `Authorization` header is attached), and on HTTP 200 parses the
body, stores `data["token"]` in `jwt_token`, stores the resolved email,
and prints a line reading `data["user"]["email"]` and
`data["user"]["plan"]` before returning the body.  On any other status it
prints the status code and the parsed body and returns `None`. -/
def login (c : Client) (emailArg passwordArg : Option String) (net : NetOutcome) : OpRun Jv :=
  let email := pyOrS emailArg c.email
  let password := pyOrS passwordArg c.password
  let req : HttpRequest :=
    { method := "POST", endpoint := "/auth/login",
      headers := [("Content-Type", "application/json")],
      jsonBody := some (.obj [("email", .ofOptStr email), ("password", .ofOptStr password)]) }
  let so : Client × OpOutcome Jv :=
    match net with
    | .raise msg => (c, .raised (.requestsError msg))
    | .resp r =>
      if r.status = 200 then
        match r.jsonBody with
        | none => (c, .raised .jsonDecodeError)
        | some data =>
          match data.get "token" with
          | none => (c, .raised (.keyError "token"))
          | some tokenVal =>
            let c1 : Client := { c with jwt_token := some tokenVal.render, email := email }
            match data.get "user" with
            | none => (c1, .raised (.keyError "user"))
            | some user =>
              if (user.get "email").isSome then
                if (user.get "plan").isSome then (c1, .ok data)
                else (c1, .raised (.keyError "plan"))
              else (c1, .raised (.keyError "email"))
      else
        match r.jsonBody with
        | none => (c, .raised .jsonDecodeError)
        | some j => (c, .failed r.status (.jsonOf j))
  ⟨so.1, [req], so.2⟩

/-- Model of `EdgeLinkClient.signup` in `edgelink_api_client.py`: posts
email/password/plan to `/auth/signup` with a `Content-Type`-only header
dict; on HTTP 201 stores `data["token"]` in `jwt_token`, stores the
email, prints `data["user"]["user_id"]` and returns the body; otherwise
prints the status and parsed body and returns `None`. -/
def signup (c : Client) (email password plan : String) (net : NetOutcome) : OpRun Jv :=
  let req : HttpRequest :=
    { method := "POST", endpoint := "/auth/signup",
      headers := [("Content-Type", "application/json")],
      jsonBody := some (.obj [("email", .str email), ("password", .str password),
        ("plan", .str plan)]) }
  let so : Client × OpOutcome Jv :=
    match net with
    | .raise msg => (c, .raised (.requestsError msg))
    | .resp r =>
      if r.status = 201 then
        match r.jsonBody with
        | none => (c, .raised .jsonDecodeError)
        | some data =>
          match data.get "token" with
          | none => (c, .raised (.keyError "token"))
          | some tokenVal =>
            let c1 : Client := { c with jwt_token := some tokenVal.render, email := some email }
            match data.get "user" with
            | none => (c1, .raised (.keyError "user"))
            | some user =>
              if (user.get "user_id").isSome then (c1, .ok data)
              else (c1, .raised (.keyError "user_id"))
      else
        match r.jsonBody with
        | none => (c, .raised .jsonDecodeError)
        | some j => (c, .failed r.status (.jsonOf j))
  ⟨so.1, [req], so.2⟩

/-- Model of `EdgeLinkClient.generate_api_key` in `edgelink_api_client.py`: if
`self.jwt_token` is not truthy, prints a message and returns `None`
without any HTTP call; otherwise posts to `/api/keys` with an explicit
header dict whose `Authorization` is built from `self.jwt_token` (never
the API key); HTTP 201 parses the body, prints `data["api_key"]` and
returns it, anything else prints the status and parsed body. -/
def generate_api_key (c : Client) (keyName : String) (expires_in_days : Int)
    (net : NetOutcome) : OpRun Jv :=
  if !truthyS c.jwt_token then
    ⟨c, [], .refused⟩
  else
    let hdrs := [("Content-Type", "application/json"),
                 ("Authorization", "Bearer " ++ c.jwt_token.getD "")]
    let req : HttpRequest :=
      { method := "POST", endpoint := "/api/keys", headers := hdrs,
        jsonBody := some (.obj [("name", .str keyName),
          ("expires_in_days", .num expires_in_days)]) }
    let so : Client × OpOutcome Jv :=
      match net with
      | .raise msg => (c, .raised (.requestsError msg))
      | .resp r =>
        if r.status = 201 then
          match r.jsonBody with
          | none => (c, .raised .jsonDecodeError)
          | some data =>
            if (data.get "api_key").isSome then (c, .ok data)
            else (c, .raised (.keyError "api_key"))
        else
          match r.jsonBody with
          | none => (c, .raised .jsonDecodeError)
          | some j => (c, .failed r.status (.jsonOf j))
    ⟨so.1, [req], so.2⟩

/-- Model of `EdgeLinkClient.revoke_api_key` in `edgelink_api_client.py`: DELETE
`/api/keys/{key_id}`; prints and returns `True` on 200, else prints the
status and returns `False`; the body is never touched. -/
def revoke_api_key (c : Client) (key_id : String) (net : NetOutcome) : OpRun Unit :=
  let req : HttpRequest :=
    { method := "DELETE", endpoint := "/api/keys/" ++ key_id, headers := get_headers c }
  let so : Client × OpOutcome Unit :=
    match net with
    | .raise msg => (c, .raised (.requestsError msg))
    | .resp r =>
      if r.status = 200 then (c, .ok ()) else (c, .failed r.status .noBody)
  ⟨so.1, [req], so.2⟩

/-- Model of `EdgeLinkClient.shorten` in `edgelink_api_client.py`: builds the
payload from `url`, truthy `custom_slug` and `group_id`, then
`payload.update(kwargs)`; posts to `/api/shorten` with the resolved auth
headers; HTTP 201 parses the body, prints `data["short_url"]` and
returns the body, anything else prints the status and parsed body and
returns `None`. -/
def shorten (c : Client) (url : Jv) (custom_slug group_id : Jv)
    (kwargs : List (String × Jv)) (net : NetOutcome) : OpRun Jv :=
  let payload0 := [("url", url)]
  let payload1 := if custom_slug.truthy then payload0 ++ [("custom_slug", custom_slug)]
    else payload0
  let payload2 := if group_id.truthy then payload1 ++ [("group_id", group_id)] else payload1
  let payload := dictUpdate payload2 kwargs
  let req : HttpRequest :=
    { method := "POST", endpoint := "/api/shorten", headers := get_headers c,
      jsonBody := some (.obj payload) }
  let so : Client × OpOutcome Jv :=
    match net with
    | .raise msg => (c, .raised (.requestsError msg))
    | .resp r =>
      if r.status = 201 then
        match r.jsonBody with
        | none => (c, .raised .jsonDecodeError)
        | some data =>
          if (data.get "short_url").isSome then (c, .ok data)
          else (c, .raised (.keyError "short_url"))
      else
        match r.jsonBody with
        | none => (c, .raised .jsonDecodeError)
        | some j => (c, .failed r.status (.jsonOf j))
  ⟨so.1, [req], so.2⟩

/-- Model of `EdgeLinkClient.list_links` in `edgelink_api_client.py`: GET
`/api/links` with page/limit (and a truthy search) in the query string;
HTTP 200 parses the body, prints `data["total"]` and
`data["totalPages"]` and returns it, else prints the status. -/
def list_links (c : Client) (page limit : Int) (search : Option String)
    (net : NetOutcome) : OpRun Jv :=
  let params := "?page=" ++ toString page ++ "&limit=" ++ toString limit
  let params := if truthyS search then params ++ "&search=" ++ search.getD "" else params
  let req : HttpRequest :=
    { method := "GET", endpoint := "/api/links" ++ params, headers := get_headers c }
  let so : Client × OpOutcome Jv :=
    match net with
    | .raise msg => (c, .raised (.requestsError msg))
    | .resp r =>
      if r.status = 200 then
        match r.jsonBody with
        | none => (c, .raised .jsonDecodeError)
        | some data =>
          if (data.get "total").isSome then
            if (data.get "totalPages").isSome then (c, .ok data)
            else (c, .raised (.keyError "totalPages"))
          else (c, .raised (.keyError "total"))
      else (c, .failed r.status .noBody)
  ⟨so.1, [req], so.2⟩

/-- Model of `EdgeLinkClient.get_link` in `edgelink_api_client.py`: GET
`/api/links/{slug}`; returns `response.json()` on 200, else prints the
status and returns `None`. -/
def get_link (c : Client) (slug : String) (net : NetOutcome) : OpRun Jv :=
  let req : HttpRequest :=
    { method := "GET", endpoint := "/api/links/" ++ slug, headers := get_headers c }
  let so : Client × OpOutcome Jv :=
    match net with
    | .raise msg => (c, .raised (.requestsError msg))
    | .resp r =>
      if r.status = 200 then
        match r.jsonBody with
        | none => (c, .raised .jsonDecodeError)
        | some data => (c, .ok data)
      else (c, .failed r.status .noBody)
  ⟨so.1, [req], so.2⟩

/-- Model of `EdgeLinkClient.update_link` in `edgelink_api_client.py`: PUT
`/api/links/{slug}` with a payload built from the truthy arguments; 200
returns `response.json()`, else prints the status and parsed body. -/
def update_link (c : Client) (slug : String) (destination new_slug : Option String)
    (net : NetOutcome) : OpRun Jv :=
  let payload0 : List (String × Jv) := []
  let payload1 := if truthyS destination then
      payload0 ++ [("destination", .ofOptStr destination)] else payload0
  let payload2 := if truthyS new_slug then payload1 ++ [("slug", .ofOptStr new_slug)]
    else payload1
  let req : HttpRequest :=
    { method := "PUT", endpoint := "/api/links/" ++ slug, headers := get_headers c,
      jsonBody := some (.obj payload2) }
  let so : Client × OpOutcome Jv :=
    match net with
    | .raise msg => (c, .raised (.requestsError msg))
    | .resp r =>
      if r.status = 200 then
        match r.jsonBody with
        | none => (c, .raised .jsonDecodeError)
        | some data => (c, .ok data)
      else
        match r.jsonBody with
        | none => (c, .raised .jsonDecodeError)
        | some j => (c, .failed r.status (.jsonOf j))
  ⟨so.1, [req], so.2⟩

/-- Model of `EdgeLinkClient.delete_link` in `edgelink_api_client.py`: DELETE
`/api/links/{slug}`; prints the slug and returns `True` on 200, else
prints the status and returns `False`.  The response body is never read,
so this method cannot raise on a malformed body. -/
def delete_link (c : Client) (slug : String) (net : NetOutcome) : OpRun Unit :=
  let req : HttpRequest :=
    { method := "DELETE", endpoint := "/api/links/" ++ slug, headers := get_headers c }
  let so : Client × OpOutcome Unit :=
    match net with
    | .raise msg => (c, .raised (.requestsError msg))
    | .resp r =>
      if r.status = 200 then (c, .ok ()) else (c, .failed r.status .noBody)
  ⟨so.1, [req], so.2⟩

/-- Model of `EdgeLinkClient.get_stats` in `edgelink_api_client.py`: GET
`/api/stats/{slug}`; HTTP 200 parses the body, prints
`data["total_clicks"]` and returns it; any other status prints only the
status code and returns `None` (the body is discarded). -/
def get_stats (c : Client) (slug : String) (net : NetOutcome) : OpRun Jv :=
  let req : HttpRequest :=
    { method := "GET", endpoint := "/api/stats/" ++ slug, headers := get_headers c }
  let so : Client × OpOutcome Jv :=
    match net with
    | .raise msg => (c, .raised (.requestsError msg))
    | .resp r =>
      if r.status = 200 then
        match r.jsonBody with
        | none => (c, .raised .jsonDecodeError)
        | some data =>
          if (data.get "total_clicks").isSome then (c, .ok data)
          else (c, .raised (.keyError "total_clicks"))
      else (c, .failed r.status .noBody)
  ⟨so.1, [req], so.2⟩

/-- Model of `EdgeLinkClient.create_group` in `edgelink_api_client.py`: POST
`/api/groups` with name/color and a truthy description; HTTP 201 parses
the body, prints `data["group"]["name"]` and `data["group"]["group_id"]`
and returns it, else prints the status and parsed body. -/
def create_group (c : Client) (groupName : String) (description : Option String)
    (color : String) (net : NetOutcome) : OpRun Jv :=
  let payload0 : List (String × Jv) := [("name", .str groupName), ("color", .str color)]
  let payload := if truthyS description then
      payload0 ++ [("description", .ofOptStr description)] else payload0
  let req : HttpRequest :=
    { method := "POST", endpoint := "/api/groups", headers := get_headers c,
      jsonBody := some (.obj payload) }
  let so : Client × OpOutcome Jv :=
    match net with
    | .raise msg => (c, .raised (.requestsError msg))
    | .resp r =>
      if r.status = 201 then
        match r.jsonBody with
        | none => (c, .raised .jsonDecodeError)
        | some data =>
          match data.get "group" with
          | none => (c, .raised (.keyError "group"))
          | some grp =>
            if (grp.get "name").isSome then
              if (grp.get "group_id").isSome then (c, .ok data)
              else (c, .raised (.keyError "group_id"))
            else (c, .raised (.keyError "name"))
      else
        match r.jsonBody with
        | none => (c, .raised .jsonDecodeError)
        | some j => (c, .failed r.status (.jsonOf j))
  ⟨so.1, [req], so.2⟩

/-- Model of `EdgeLinkClient.get_routing` in `edgelink_api_client.py`: GET
`/api/links/{slug}/routing`; returns `response.json()` on 200, else
prints the status and returns `None`. -/
def get_routing (c : Client) (slug : String) (net : NetOutcome) : OpRun Jv :=
  let req : HttpRequest :=
    { method := "GET", endpoint := "/api/links/" ++ slug ++ "/routing",
      headers := get_headers c }
  let so : Client × OpOutcome Jv :=
    match net with
    | .raise msg => (c, .raised (.requestsError msg))
    | .resp r =>
      if r.status = 200 then
        match r.jsonBody with
        | none => (c, .raised .jsonDecodeError)
        | some data => (c, .ok data)
      else (c, .failed r.status .noBody)
  ⟨so.1, [req], so.2⟩

/-- Model of `EdgeLinkClient.export_links` in `edgelink_api_client.py`: GET
`/api/export/links?format=`; on 200 and format `json` parses the body,
prints `data["total_links"]` and returns it, on any other format returns
`response.text`; any other status prints the status and parsed body. -/
def export_links (c : Client) (format : String) (net : NetOutcome) : OpRun Jv :=
  let req : HttpRequest :=
    { method := "GET", endpoint := "/api/export/links?format=" ++ format,
      headers := get_headers c }
  let so : Client × OpOutcome Jv :=
    match net with
    | .raise msg => (c, .raised (.requestsError msg))
    | .resp r =>
      if r.status = 200 then
        if format == "json" then
          match r.jsonBody with
          | none => (c, .raised .jsonDecodeError)
          | some data =>
            if (data.get "total_links").isSome then (c, .ok data)
            else (c, .raised (.keyError "total_links"))
        else (c, .ok (.str r.text))
      else
        match r.jsonBody with
        | none => (c, .raised .jsonDecodeError)
        | some j => (c, .failed r.status (.jsonOf j))
  ⟨so.1, [req], so.2⟩

/-- Model of `EdgeLinkClient.delete_webhook` in `edgelink_api_client.py`: DELETE
`/api/webhooks/{id}`; `True` on 200, else prints the status and returns
`False`. -/
def delete_webhook (c : Client) (webhook_id : String) (net : NetOutcome) : OpRun Unit :=
  let req : HttpRequest :=
    { method := "DELETE", endpoint := "/api/webhooks/" ++ webhook_id,
      headers := get_headers c }
  let so : Client × OpOutcome Unit :=
    match net with
    | .raise msg => (c, .raised (.requestsError msg))
    | .resp r =>
      if r.status = 200 then (c, .ok ()) else (c, .failed r.status .noBody)
  ⟨so.1, [req], so.2⟩

/-- Model of `EdgeLinkClient.__init__` in `edgelink_api_client.py`: stores the
credential fields with `jwt_token = None`, then calls `self.login()` iff
`email and password and not api_key` is truthy.  Returns the constructed
client state and the requests issued. -/
def initClient (api_key email password : Option String) (net : NetOutcome) :
    Client × List HttpRequest :=
  let c : Client := ⟨api_key, none, email, password⟩
  if truthyS email && truthyS password && !truthyS api_key then
    let run := login c none none net
    (run.state, run.requests)
  else
    (c, [])

/-- The loop body of `EdgeLinkClient.bulk_create_links` in
`edgelink_api_client.py`, iterating over the remaining link dicts; the
`i`-th `shorten` call receives network outcome `script i`.  Returns the
final state, all requests issued, and either the accumulated
(results, successful, failed) or the exception that escaped. -/
def bulkAux (c : Client) (links : List (List (String × Jv))) (script : Nat → NetOutcome)
    (i : Nat) : Client × List HttpRequest × OpOutcome (List Jv × Nat × Nat) :=
  match links with
  | [] => (c, [], .ok ([], 0, 0))
  | link_data :: rest =>
    let url := (lookupJv link_data "url").getD .null
    let custom_slug := (lookupJv link_data "custom_slug").getD .null
    let group_id := (lookupJv link_data "group_id").getD .null
    let kwargs := link_data.filter
      (fun kv => !(kv.1 == "url" || kv.1 == "custom_slug" || kv.1 == "group_id"))
    let run := shorten c url custom_slug group_id kwargs (script i)
    match run.outcome with
    | .ok data =>
      if data.truthy then
        match data.get "slug", data.get "short_url" with
        | some slugV, some shortV =>
          let entry : Jv := .obj [("success", .bool true), ("slug", slugV),
            ("short_url", shortV), ("destination", url)]
          let restRun := bulkAux run.state rest script (i + 1)
          (restRun.1, run.requests ++ restRun.2.1,
            match restRun.2.2 with
            | .ok (entries, succ, fail) => .ok (entry :: entries, succ + 1, fail)
            | other => other)
        | none, _ => (run.state, run.requests, .raised (.keyError "slug"))
        | some _, none => (run.state, run.requests, .raised (.keyError "short_url"))
      else
        let entry : Jv := .obj [("success", .bool false), ("destination", url),
          ("error", .str "Failed to create")]
        let restRun := bulkAux run.state rest script (i + 1)
        (restRun.1, run.requests ++ restRun.2.1,
          match restRun.2.2 with
          | .ok (entries, succ, fail) => .ok (entry :: entries, succ, fail + 1)
          | other => other)
    | .failed _ _ | .refused =>
      let entry : Jv := .obj [("success", .bool false), ("destination", url),
        ("error", .str "Failed to create")]
      let restRun := bulkAux run.state rest script (i + 1)
      (restRun.1, run.requests ++ restRun.2.1,
        match restRun.2.2 with
        | .ok (entries, succ, fail) => .ok (entry :: entries, succ, fail + 1)
        | other => other)
    | .raised e => (run.state, run.requests, .raised e)

/-- Result of `bulk_create_links`.  The `successful`/`failed` tallies are
the ones the Python loop prints at the end; they are only meaningful
when `results` is `.ok` (otherwise an exception escaped the loop and
they are reported as zero). -/
structure BulkRun where
  state : Client
  requests : List HttpRequest
  results : OpOutcome (List Jv)
  successful : Nat
  failed : Nat

/-- Model of `EdgeLinkClient.bulk_create_links` in `edgelink_api_client.py`. -/
def bulk_create_links (c : Client) (links : List (List (String × Jv)))
    (script : Nat → NetOutcome) : BulkRun :=
  let run := bulkAux c links script 0
  match run.2.2 with
  | .ok (entries, succ, fail) => ⟨run.1, run.2.1, .ok entries, succ, fail⟩
  | .failed s d => ⟨run.1, run.2.1, .failed s d, 0, 0⟩
  | .refused => ⟨run.1, run.2.1, .refused, 0, 0⟩
  | .raised e => ⟨run.1, run.2.1, .raised e, 0, 0⟩

end Api

namespace Full

/-- Model of `EdgeLinkClient._get_headers` in `edgelink_full_features_client.py`:
same resolution, written with an early return of the bare
`Content-Type` dict when no token is truthy. -/
def get_headers (c : Client) : List (String × String) :=
  let token := pyOrS c.api_key c.jwt_token
  if !truthyS token then
    [("Content-Type", "application/json")]
  else
    [("Content-Type", "application/json"),
     ("Authorization", "Bearer " ++ token.getD "")]

/-- Model of `EdgeLinkClient.login` in `edgelink_full_features_client.py`: posts
the stored email/password via `requests.post(..., json=...)` (which sets
only the JSON `Content-Type` header, so no `Authorization` is sent); on
HTTP 200 stores `data["token"]` in `jwt_token` and prints
`data["user"]["email"]` and `data["user"]["plan"]`; on any other status
prints the status code and `response.text` and returns `None`. -/
def login (c : Client) (net : NetOutcome) : OpRun Jv :=
  let req : HttpRequest :=
    { method := "POST", endpoint := "/auth/login",
      headers := [("Content-Type", "application/json")],
      jsonBody := some (.obj [("email", .ofOptStr c.email),
        ("password", .ofOptStr c.password)]) }
  let so : Client × OpOutcome Jv :=
    match net with
    | .raise msg => (c, .raised (.requestsError msg))
    | .resp r =>
      if r.status = 200 then
        match r.jsonBody with
        | none => (c, .raised .jsonDecodeError)
        | some data =>
          match data.get "token" with
          | none => (c, .raised (.keyError "token"))
          | some tokenVal =>
            let c1 : Client := { c with jwt_token := some tokenVal.render }
            match data.get "user" with
            | none => (c1, .raised (.keyError "user"))
            | some user =>
              if (user.get "email").isSome then
                if (user.get "plan").isSome then (c1, .ok data)
                else (c1, .raised (.keyError "plan"))
              else (c1, .raised (.keyError "email"))
      else (c, .failed r.status (.textOf r.text))
  ⟨so.1, [req], so.2⟩

/-- Model of `EdgeLinkClient.get_stats` in `edgelink_full_features_client.py`: GET
`/api/stats/{slug}`; HTTP 200 parses the body, prints
`data["total_clicks"]` and `data["created_at"]` and returns it; any
other status prints the status code and `response.text` (so the raw body
is surfaced) and returns `None`. -/
def get_stats (c : Client) (slug : String) (net : NetOutcome) : OpRun Jv :=
  let req : HttpRequest :=
    { method := "GET", endpoint := "/api/stats/" ++ slug, headers := get_headers c }
  let so : Client × OpOutcome Jv :=
    match net with
    | .raise msg => (c, .raised (.requestsError msg))
    | .resp r =>
      if r.status = 200 then
        match r.jsonBody with
        | none => (c, .raised .jsonDecodeError)
        | some data =>
          if (data.get "total_clicks").isSome then
            if (data.get "created_at").isSome then (c, .ok data)
            else (c, .raised (.keyError "created_at"))
          else (c, .raised (.keyError "total_clicks"))
      else (c, .failed r.status (.textOf r.text))
  ⟨so.1, [req], so.2⟩

end Full

namespace Ex

/-- Model of `EdgeLinkClient._get_headers` in `examples/python_api_client.py`,
textually the same resolution as the full-features client. -/
def get_headers (c : Client) : List (String × String) :=
  let token := pyOrS c.api_key c.jwt_token
  if !truthyS token then
    [("Content-Type", "application/json")]
  else
    [("Content-Type", "application/json"),
     ("Authorization", "Bearer " ++ token.getD "")]

/-- Model of `EdgeLinkClient.delete_link` in `examples/python_api_client.py`:
DELETE `/api/links/{slug}`; on 200 returns `response.json()` (raising if
the body is not JSON), otherwise prints the status code and
`response.json()` (again raising on a non-JSON body) and returns
`None`. -/
def delete_link (c : Client) (slug : String) (net : NetOutcome) : OpRun Jv :=
  let req : HttpRequest :=
    { method := "DELETE", endpoint := "/api/links/" ++ slug, headers := get_headers c }
  let so : Client × OpOutcome Jv :=
    match net with
    | .raise msg => (c, .raised (.requestsError msg))
    | .resp r =>
      if r.status = 200 then
        match r.jsonBody with
        | none => (c, .raised .jsonDecodeError)
        | some data => (c, .ok data)
      else
        match r.jsonBody with
        | none => (c, .raised .jsonDecodeError)
        | some j => (c, .failed r.status (.jsonOf j))
  ⟨so.1, [req], so.2⟩

end Ex

/-- A network outcome under which one `shorten` call inside
`bulk_create_links` completes without raising: a response whose body is
valid JSON, and — when the status is the success status 201 — whose body
carries the `slug` and `short_url` fields that `shorten` and the bulk
loop read. -/
def goodShortenOutcome : NetOutcome → Bool
  | .raise _ => false
  | .resp r =>
    match r.jsonBody with
    | none => false
    | some j =>
      if r.status = 201 then (j.get "slug").isSome && (j.get "short_url").isSome
      else true

/-- What the `i`-th result entry of `bulk_create_links` must look like,
as a function of the network outcome of the `i`-th `shorten` call: a
`success = True` entry copying the slug and short URL out of a 201
response, or a `success = False` entry for any other status. -/
def entryMatches (net : NetOutcome) (entry : Jv) : Prop :=
  (∃ r j, net = .resp r ∧ r.status = 201 ∧ r.jsonBody = some j ∧
    entry.get "success" = some (.bool true) ∧
    entry.get "slug" = j.get "slug" ∧
    entry.get "short_url" = j.get "short_url") ∨
  (∃ r, net = .resp r ∧ r.status ≠ 201 ∧
    entry.get "success" = some (.bool false) ∧
    entry.get "error" = some (.str "Failed to create"))

/-!  Theorems about the claims.  -/

/-- C1: for every client state whose credential fields, when set, hold an
actual (non-empty) token, the header-building operation `_get_headers`
returns the same mapping in both client files; it always maps
`Content-Type` to `application/json`; it contains an `Authorization`
header iff at least one of `api_key` or `jwt_token` is set, and the
header value is `Bearer <token>` where the token is the `api_key`
whenever `api_key` is set (API key precedence) and the session token only
when `api_key` is unset. -/
theorem c1_header_resolution (c : Client)
    (hak : ∀ s, c.api_key = some s → s ≠ "")
    (hjt : ∀ s, c.jwt_token = some s → s ≠ "") :
    Full.get_headers c = Api.get_headers c ∧
    lookupHeader (Api.get_headers c) "Content-Type" = some "application/json" ∧
    (c.api_key = none → c.jwt_token = none →
      lookupHeader (Api.get_headers c) "Authorization" = none) ∧
    (∀ k, c.api_key = some k →
      lookupHeader (Api.get_headers c) "Authorization" = some ("Bearer " ++ k)) ∧
    (∀ t, c.api_key = none → c.jwt_token = some t →
      lookupHeader (Api.get_headers c) "Authorization" = some ("Bearer " ++ t)) := by
  obtain ⟨ak, jt, em, pw⟩ := c
  simp only [Client.mk.injEq] at hak hjt
  cases ak with
  | none =>
    cases jt with
    | none =>
      refine ⟨rfl, rfl, fun _ _ => rfl, ?_, ?_⟩
      · intro k hk; cases hk
      · intro t _ ht; cases ht
    | some t =>
      have ht : (t == "") = false := by
        have := hjt t rfl
        simpa [beq_eq_false_iff_ne] using this
      refine ⟨?_, ?_, ?_, ?_, ?_⟩
      · simp [Full.get_headers, Api.get_headers, pyOrS, truthyS, ht]
      · simp [Api.get_headers, pyOrS, truthyS, ht, lookupHeader]
      · intro _ h; cases h
      · intro k hk; cases hk
      · intro t2 _ ht2
        obtain rfl : t = t2 := by injection ht2
        simp [Api.get_headers, pyOrS, truthyS, ht, lookupHeader]
  | some k =>
    have hk : (k == "") = false := by
      have := hak k rfl
      simpa [beq_eq_false_iff_ne] using this
    refine ⟨?_, ?_, ?_, ?_, ?_⟩
    · simp [Full.get_headers, Api.get_headers, pyOrS, truthyS, hk]
    · simp [Api.get_headers, pyOrS, truthyS, hk, lookupHeader]
    · intro h; cases h
    · intro k2 hk2
      obtain rfl : k = k2 := by injection hk2
      simp [Api.get_headers, pyOrS, truthyS, hk, lookupHeader]
    · intro _ h; cases h

/-- Witness for C1 at a concrete client holding both an API key and a
session token: the API key wins. -/
theorem c1_header_resolution_witness :
    lookupHeader (Api.get_headers ⟨some "elk_abc", some "jwt_xyz", none, none⟩)
      "Authorization" = some ("Bearer " ++ "elk_abc") :=
  (c1_header_resolution ⟨some "elk_abc", some "jwt_xyz", none, none⟩
    (by intro s hs h; subst h; exact absurd (Option.some.inj hs) (by decide))
    (by intro s hs h; subst h; exact absurd (Option.some.inj hs) (by decide))).2.2.2.1
    "elk_abc" rfl

/-- C2: `login` issues a single `POST /auth/login` whose JSON body holds
the resolved email and password and whose explicit header dict has no
`Authorization` entry; when the response status is 200 (and the body is
the documented `{token, user:{email, plan}}` shape) the token is stored
in `jwt_token` and the parsed body is returned; on any other status the
whole client state is unchanged and the classified failure surfaced to
the caller names the status code and the response body (the parsed body
in `edgelink_api_client.py`, the raw text in
`edgelink_full_features_client.py`). -/
theorem c2_login_contract (c : Client) (ea pa : Option String) (r : HttpResponse) :
    (Api.login c ea pa (.resp r)).requests =
      [⟨"POST", "/auth/login", [("Content-Type", "application/json")],
        some (.obj [("email", .ofOptStr (pyOrS ea c.email)),
          ("password", .ofOptStr (pyOrS pa c.password))]), none⟩] ∧
    (∀ data tok user, r.status = 200 → r.jsonBody = some data →
      data.get "token" = some (.str tok) → data.get "user" = some user →
      (user.get "email").isSome = true → (user.get "plan").isSome = true →
      (Api.login c ea pa (.resp r)).state =
        { c with jwt_token := some tok, email := pyOrS ea c.email } ∧
      (Api.login c ea pa (.resp r)).outcome = .ok data) ∧
    (r.status ≠ 200 → (Api.login c ea pa (.resp r)).state = c) ∧
    (∀ j, r.status ≠ 200 → r.jsonBody = some j →
      (Api.login c ea pa (.resp r)).outcome = .failed r.status (.jsonOf j)) ∧
    (Full.login c (.resp r)).requests =
      [⟨"POST", "/auth/login", [("Content-Type", "application/json")],
        some (.obj [("email", .ofOptStr c.email),
          ("password", .ofOptStr c.password)]), none⟩] ∧
    (r.status ≠ 200 →
      (Full.login c (.resp r)).state = c ∧
      (Full.login c (.resp r)).outcome = .failed r.status (.textOf r.text)) := by
  refine ⟨rfl, ?_, ?_, ?_, rfl, ?_⟩
  · intro data tok user h200 hbody htok huser hemail hplan
    simp [Api.login, h200, hbody, htok, huser, hemail, hplan, Jv.render]
  · intro hne
    simp only [Api.login]
    cases hb : r.jsonBody <;> simp [hne, hb]
  · intro j hne hj
    simp [Api.login, hne, hj]
  · intro hne
    simp [Full.login, hne]

/-- Witness for C2: a concrete successful login stores the returned token
and the resolved email. -/
theorem c2_login_contract_witness :
    (Api.login ⟨none, none, some "u@x.io", some "pw"⟩ none none
      (.resp ⟨200, some (.obj [("token", .str "tok1"),
        ("user", .obj [("email", .str "u@x.io"), ("plan", .str "free")])]), "raw"⟩)).state =
      ⟨none, some "tok1", some "u@x.io", some "pw"⟩ :=
  ((c2_login_contract ⟨none, none, some "u@x.io", some "pw"⟩ none none
      ⟨200, some (.obj [("token", .str "tok1"),
        ("user", .obj [("email", .str "u@x.io"), ("plan", .str "free")])]), "raw"⟩).2.1
    (.obj [("token", .str "tok1"),
      ("user", .obj [("email", .str "u@x.io"), ("plan", .str "free")])])
    "tok1" (.obj [("email", .str "u@x.io"), ("plan", .str "free")])
    rfl rfl rfl rfl rfl rfl).1

/-- C3 counterexample: at a 404 response whose body is a perfectly good
JSON error object, `get_stats` and `delete_link` of
`edgelink_api_client.py` return failures that surface only the status
code — the response body is discarded (`Diag.noBody`), not carried for
caller inspection as the claim states. -/
theorem c3_failure_body_counterexample :
    (Api.get_stats ⟨some "elk_k", none, none, none⟩ "abc"
      (.resp ⟨404, some (.obj [("error", .str "Link not found")]), "ignored"⟩)).outcome =
      .failed 404 .noBody ∧
    (Api.delete_link ⟨some "elk_k", none, none, none⟩ "abc"
      (.resp ⟨404, some (.obj [("error", .str "Link not found")]), "ignored"⟩)).outcome =
      .failed 404 .noBody :=
  ⟨rfl, rfl⟩

/-- C3 (amended): for the cited operations (`delete_link` and `get_stats`
of `edgelink_api_client.py`, `get_stats` of
`edgelink_full_features_client.py`), every response whose status differs
from the expected success status 200 yields a Failure carrying the
status code verbatim (the remote error is not transformed), and exactly
one HTTP request is issued per invocation with no retry; however only
the full-features `get_stats` carries the response body (as raw text)
in its failure diagnostics — the other two discard the body. -/
theorem c3_error_passthrough (c : Client) (slug : String) (r : HttpResponse)
    (hne : r.status ≠ 200) :
    (Api.delete_link c slug (.resp r)).outcome = .failed r.status .noBody ∧
    (Api.get_stats c slug (.resp r)).outcome = .failed r.status .noBody ∧
    (Full.get_stats c slug (.resp r)).outcome = .failed r.status (.textOf r.text) ∧
    (∀ net, (Api.delete_link c slug net).requests.length = 1) ∧
    (∀ net, (Api.get_stats c slug net).requests.length = 1) ∧
    (∀ net, (Full.get_stats c slug net).requests.length = 1) := by
  refine ⟨?_, ?_, ?_, fun _ => rfl, fun _ => rfl, fun _ => rfl⟩ <;>
    simp [Api.delete_link, Api.get_stats, Full.get_stats, hne]

/-- Witness for C3 (amended) at a concrete 404. -/
theorem c3_error_passthrough_witness :
    (Full.get_stats ⟨some "elk_k", none, none, none⟩ "abc"
      (.resp ⟨404, some (.obj [("error", .str "Link not found")]), "rawbody"⟩)).outcome =
      .failed 404 (.textOf "rawbody") :=
  (c3_error_passthrough ⟨some "elk_k", none, none, none⟩ "abc"
    ⟨404, some (.obj [("error", .str "Link not found")]), "rawbody"⟩
    (by decide)).2.2.1

/-- C4 counterexample: a connection error in `get_stats` surfaces as a
propagated `requests` exception, not as a classified result carrying an
original status and body (there is none to carry). -/
theorem c4_transport_counterexample :
    (Api.get_stats ⟨some "elk_k", none, none, none⟩ "abc" (.raise "ConnectionError")).outcome =
      .raised (.requestsError "ConnectionError") ∧
    (Api.get_stats ⟨some "elk_k", none, none, none⟩ "abc"
      (.raise "ConnectionError")).outcome.isHttpFailure = false :=
  ⟨rfl, rfl⟩

/-- C4 (amended): network-level failures (connection errors, timeouts)
propagate out of every operation as the raised `requests` exception — a
failure kind distinct from the application-level HTTP-status failure —
leaving the client state unchanged and never being silently swallowed;
they carry the transport error, not an HTTP status and body.
Application-level non-success responses, by contrast, are classified
failures naming the original status. -/
theorem c4_failure_taxonomy (c : Client) (slug msg : String) (ea pa : Option String)
    (r : HttpResponse) (hne : r.status ≠ 200) :
    (Api.get_stats c slug (.raise msg)).outcome = .raised (.requestsError msg) ∧
    (Api.get_stats c slug (.raise msg)).state = c ∧
    (Api.delete_link c slug (.raise msg)).outcome = .raised (.requestsError msg) ∧
    (Api.login c ea pa (.raise msg)).outcome = .raised (.requestsError msg) ∧
    (Api.login c ea pa (.raise msg)).state = c ∧
    (Api.get_stats c slug (.raise msg)).outcome.isTransportError = true ∧
    (Api.get_stats c slug (.raise msg)).outcome.isHttpFailure = false ∧
    (Api.get_stats c slug (.resp r)).outcome.isTransportError = false ∧
    (Api.get_stats c slug (.resp r)).outcome.isHttpFailure = true := by
  refine ⟨rfl, rfl, rfl, rfl, rfl, rfl, rfl, ?_, ?_⟩ <;>
    simp [Api.get_stats, OpOutcome.isTransportError, OpOutcome.isHttpFailure, hne]

/-- Witness for C4 (amended) at a concrete client, message and 500
response. -/
theorem c4_failure_taxonomy_witness :
    (Api.get_stats ⟨none, some "jwt", none, none⟩ "abc" (.raise "Timeout")).outcome =
      .raised (.requestsError "Timeout") ∧
    (Api.get_stats ⟨none, some "jwt", none, none⟩ "abc"
      (.resp ⟨500, none, "oops"⟩)).outcome.isHttpFailure = true :=
  ⟨(c4_failure_taxonomy ⟨none, some "jwt", none, none⟩ "abc" "Timeout" none none
      ⟨500, none, "oops"⟩ (by decide)).1,
   (c4_failure_taxonomy ⟨none, some "jwt", none, none⟩ "abc" "Timeout" none none
      ⟨500, none, "oops"⟩ (by decide)).2.2.2.2.2.2.2.2⟩

/-! Frame lemmas: no operation other than login/signup ever writes a
client field; login/signup write only `jwt_token` and `email`. -/

theorem Api.shorten_state (c : Client) (url cs gid : Jv) (kwargs : List (String × Jv))
    (net : NetOutcome) : (Api.shorten c url cs gid kwargs net).state = c := by
  cases net with
  | raise msg => rfl
  | resp r =>
    simp only [Api.shorten]
    repeat' split
    all_goals rfl

theorem Api.list_links_state (c : Client) (page limit : Int) (search : Option String)
    (net : NetOutcome) : (Api.list_links c page limit search net).state = c := by
  cases net with
  | raise msg => rfl
  | resp r =>
    simp only [Api.list_links]
    repeat' split
    all_goals rfl

theorem Api.get_link_state (c : Client) (slug : String) (net : NetOutcome) :
    (Api.get_link c slug net).state = c := by
  cases net with
  | raise msg => rfl
  | resp r =>
    simp only [Api.get_link]
    repeat' split
    all_goals rfl

theorem Api.update_link_state (c : Client) (slug : String) (dest nslug : Option String)
    (net : NetOutcome) : (Api.update_link c slug dest nslug net).state = c := by
  cases net with
  | raise msg => rfl
  | resp r =>
    simp only [Api.update_link]
    repeat' split
    all_goals rfl

theorem Api.delete_link_state (c : Client) (slug : String) (net : NetOutcome) :
    (Api.delete_link c slug net).state = c := by
  cases net with
  | raise msg => rfl
  | resp r =>
    simp only [Api.delete_link]
    repeat' split
    all_goals rfl

theorem Api.get_stats_state (c : Client) (slug : String) (net : NetOutcome) :
    (Api.get_stats c slug net).state = c := by
  cases net with
  | raise msg => rfl
  | resp r =>
    simp only [Api.get_stats]
    repeat' split
    all_goals rfl

theorem Api.create_group_state (c : Client) (nm : String) (descr : Option String)
    (col : String) (net : NetOutcome) : (Api.create_group c nm descr col net).state = c := by
  cases net with
  | raise msg => rfl
  | resp r =>
    simp only [Api.create_group]
    repeat' split
    all_goals rfl

theorem Api.get_routing_state (c : Client) (slug : String) (net : NetOutcome) :
    (Api.get_routing c slug net).state = c := by
  cases net with
  | raise msg => rfl
  | resp r =>
    simp only [Api.get_routing]
    repeat' split
    all_goals rfl

theorem Api.export_links_state (c : Client) (fmt : String) (net : NetOutcome) :
    (Api.export_links c fmt net).state = c := by
  cases net with
  | raise msg => rfl
  | resp r =>
    simp only [Api.export_links]
    repeat' split
    all_goals rfl

theorem Api.delete_webhook_state (c : Client) (wid : String) (net : NetOutcome) :
    (Api.delete_webhook c wid net).state = c := by
  cases net with
  | raise msg => rfl
  | resp r =>
    simp only [Api.delete_webhook]
    repeat' split
    all_goals rfl

theorem Api.revoke_api_key_state (c : Client) (kid : String) (net : NetOutcome) :
    (Api.revoke_api_key c kid net).state = c := by
  cases net with
  | raise msg => rfl
  | resp r =>
    simp only [Api.revoke_api_key]
    repeat' split
    all_goals rfl

theorem Api.generate_api_key_state (c : Client) (nm : String) (days : Int)
    (net : NetOutcome) : (Api.generate_api_key c nm days net).state = c := by
  by_cases h : truthyS c.jwt_token
  · cases net with
    | raise msg => simp [Api.generate_api_key, h]
    | resp r =>
      simp only [Api.generate_api_key, h]
      repeat' split
      all_goals rfl
  · simp [Api.generate_api_key, h]

theorem Full.get_stats_state_frame (c : Client) (slug : String) (net : NetOutcome) :
    (Full.get_stats c slug net).state = c := by
  cases net with
  | raise msg => rfl
  | resp r =>
    simp only [Full.get_stats]
    repeat' split
    all_goals rfl

theorem Ex.delete_link_state_frame (c : Client) (slug : String) (net : NetOutcome) :
    (Ex.delete_link c slug net).state = c := by
  cases net with
  | raise msg => rfl
  | resp r =>
    simp only [Ex.delete_link]
    repeat' split
    all_goals rfl

theorem Api.bulkAux_state (links : List (List (String × Jv))) :
    ∀ (c : Client) (script : Nat → NetOutcome) (i : Nat),
      (Api.bulkAux c links script i).1 = c := by
  induction links with
  | nil => intro c script i; rfl
  | cons ld rest ih =>
    intro c script i
    simp only [Api.bulkAux]
    repeat' split
    all_goals simp [Api.shorten_state, ih]

theorem Api.bulk_create_links_state (c : Client) (links : List (List (String × Jv)))
    (script : Nat → NetOutcome) : (Api.bulk_create_links c links script).state = c := by
  simp only [Api.bulk_create_links]
  repeat' split
  all_goals simp [Api.bulkAux_state]

theorem Api.login_creds (c : Client) (ea pa : Option String) (net : NetOutcome) :
    (Api.login c ea pa net).state.api_key = c.api_key ∧
    (Api.login c ea pa net).state.password = c.password := by
  cases net with
  | raise msg => exact ⟨rfl, rfl⟩
  | resp r =>
    simp only [Api.login]
    repeat' split
    all_goals exact ⟨rfl, rfl⟩

theorem Api.signup_creds (c : Client) (em pw plan : String) (net : NetOutcome) :
    (Api.signup c em pw plan net).state.api_key = c.api_key ∧
    (Api.signup c em pw plan net).state.password = c.password := by
  cases net with
  | raise msg => exact ⟨rfl, rfl⟩
  | resp r =>
    simp only [Api.signup]
    repeat' split
    all_goals exact ⟨rfl, rfl⟩

theorem Full.login_creds_frame (c : Client) (net : NetOutcome) :
    (Full.login c net).state.api_key = c.api_key ∧
    (Full.login c net).state.password = c.password := by
  cases net with
  | raise msg => exact ⟨rfl, rfl⟩
  | resp r =>
    simp only [Full.login]
    repeat' split
    all_goals exact ⟨rfl, rfl⟩

/-- C5: every modeled endpoint operation other than `login`/`signup`
(link create/list/get/update/delete, group creation, routing read,
stats, exports, webhook deletion, API-key generation/revocation, the
bulk loop, in all three client files) returns the client state
completely unchanged — `api_key`, `jwt_token`, `email` and `password`
are all preserved, for every network outcome; and even `login`/`signup`
never modify or clear `api_key` (or `password`), so an API key set at
construction persists across every operation. -/
theorem c5_credential_frame (c : Client) (slug wid : String) (url cs gid : Jv)
    (kwargs : List (String × Jv)) (page limit : Int) (search dest nslug descr : Option String)
    (fmt nm col : String) (days : Int) (links : List (List (String × Jv)))
    (script : Nat → NetOutcome) (net : NetOutcome) (ea pa : Option String)
    (em pw plan : String) :
    (Api.shorten c url cs gid kwargs net).state = c ∧
    (Api.list_links c page limit search net).state = c ∧
    (Api.get_link c slug net).state = c ∧
    (Api.update_link c slug dest nslug net).state = c ∧
    (Api.delete_link c slug net).state = c ∧
    (Api.get_stats c slug net).state = c ∧
    (Api.create_group c nm descr col net).state = c ∧
    (Api.get_routing c slug net).state = c ∧
    (Api.export_links c fmt net).state = c ∧
    (Api.delete_webhook c wid net).state = c ∧
    (Api.revoke_api_key c wid net).state = c ∧
    (Api.generate_api_key c nm days net).state = c ∧
    (Full.get_stats c slug net).state = c ∧
    (Ex.delete_link c slug net).state = c ∧
    (Api.bulk_create_links c links script).state = c ∧
    (Api.login c ea pa net).state.api_key = c.api_key ∧
    (Api.login c ea pa net).state.password = c.password ∧
    (Api.signup c em pw plan net).state.api_key = c.api_key ∧
    (Api.signup c em pw plan net).state.password = c.password ∧
    (Full.login c net).state.api_key = c.api_key :=
  ⟨Api.shorten_state c url cs gid kwargs net,
   Api.list_links_state c page limit search net,
   Api.get_link_state c slug net,
   Api.update_link_state c slug dest nslug net,
   Api.delete_link_state c slug net,
   Api.get_stats_state c slug net,
   Api.create_group_state c nm descr col net,
   Api.get_routing_state c slug net,
   Api.export_links_state c fmt net,
   Api.delete_webhook_state c wid net,
   Api.revoke_api_key_state c wid net,
   Api.generate_api_key_state c nm days net,
   Full.get_stats_state_frame c slug net,
   Ex.delete_link_state_frame c slug net,
   Api.bulk_create_links_state c links script,
   (Api.login_creds c ea pa net).1,
   (Api.login_creds c ea pa net).2,
   (Api.signup_creds c em pw plan net).1,
   (Api.signup_creds c em pw plan net).2,
   (Full.login_creds_frame c net).1⟩

/-- C6: `signup` issues a single `POST /auth/signup` whose JSON body holds
email, password and plan; its expected success status is HTTP 201, on
which (for the documented `{token, user:{user_id}}` body shape) it
stores the returned token in `jwt_token` — the same token-storage side
effect as `login` — and returns the parsed body; on any other status the
client state is unchanged (no token stored) and the classified failure
names the status code and the parsed response body. -/
theorem c6_signup_contract (c : Client) (em pw plan : String) (r : HttpResponse) :
    (Api.signup c em pw plan (.resp r)).requests =
      [⟨"POST", "/auth/signup", [("Content-Type", "application/json")],
        some (.obj [("email", .str em), ("password", .str pw), ("plan", .str plan)]),
        none⟩] ∧
    (∀ data tok user, r.status = 201 → r.jsonBody = some data →
      data.get "token" = some (.str tok) → data.get "user" = some user →
      (user.get "user_id").isSome = true →
      (Api.signup c em pw plan (.resp r)).state =
        { c with jwt_token := some tok, email := some em } ∧
      (Api.signup c em pw plan (.resp r)).outcome = .ok data) ∧
    (r.status ≠ 201 → (Api.signup c em pw plan (.resp r)).state = c) ∧
    (∀ j, r.status ≠ 201 → r.jsonBody = some j →
      (Api.signup c em pw plan (.resp r)).outcome = .failed r.status (.jsonOf j)) := by
  refine ⟨rfl, ?_, ?_, ?_⟩
  · intro data tok user h201 hbody htok huser huid
    simp [Api.signup, h201, hbody, htok, huser, huid, Jv.render]
  · intro hne
    simp only [Api.signup]
    cases hb : r.jsonBody <;> simp [hne, hb]
  · intro j hne hj
    simp [Api.signup, hne, hj]

/-- Witness for C6: a concrete successful signup stores the returned
token. -/
theorem c6_signup_contract_witness :
    (Api.signup ⟨none, none, none, none⟩ "n@x.io" "pw" "free"
      (.resp ⟨201, some (.obj [("token", .str "tok2"),
        ("user", .obj [("user_id", .str "u1")])]), "raw"⟩)).state =
      ⟨none, some "tok2", some "n@x.io", none⟩ :=
  ((c6_signup_contract ⟨none, none, none, none⟩ "n@x.io" "pw" "free"
      ⟨201, some (.obj [("token", .str "tok2"),
        ("user", .obj [("user_id", .str "u1")])]), "raw"⟩).2.1
    (.obj [("token", .str "tok2"), ("user", .obj [("user_id", .str "u1")])])
    "tok2" (.obj [("user_id", .str "u1")]) rfl rfl rfl rfl rfl).1

/-- C7 counterexample: the claim is false for the cited
`examples/python_api_client.py` variant of `delete_link`: at a 404
response whose body is not valid JSON it raises `JSONDecodeError`
(printing `response.json()` in the failure branch), instead of
returning a not-found-classified failure — the operation is not total
for every response. -/
theorem c7_double_delete_counterexample :
    (Ex.delete_link ⟨some "elk_k", none, none, none⟩ "s"
      (.resp ⟨404, none, "<html>Not Found</html>"⟩)).outcome = .raised .jsonDecodeError :=
  rfl

/-- C7 (amended): calling `delete_link` twice on the same slug, the first
call answered with HTTP 200 and the second with 404, yields a success
then a not-found-classified failure.  For `edgelink_api_client.py` this
holds for every response body — including bodies that are not valid
JSON — because that variant never reads the body; for the
`examples/python_api_client.py` variant it holds whenever the response
bodies are valid JSON (a non-JSON body makes that variant raise, per the
counterexample). -/
theorem c7_delete_twice (c : Client) (slug : String) (r1 r2 : HttpResponse)
    (h1 : r1.status = 200) (h2 : r2.status = 404) :
    (Api.delete_link c slug (.resp r1)).outcome = .ok () ∧
    (Api.delete_link (Api.delete_link c slug (.resp r1)).state slug (.resp r2)).outcome =
      .failed 404 .noBody ∧
    (∀ j1, r1.jsonBody = some j1 →
      (Ex.delete_link c slug (.resp r1)).outcome = .ok j1) ∧
    (∀ j2, r2.jsonBody = some j2 →
      (Ex.delete_link (Ex.delete_link c slug (.resp r1)).state slug (.resp r2)).outcome =
        .failed 404 (.jsonOf j2)) := by
  refine ⟨?_, ?_, ?_, ?_⟩
  · simp [Api.delete_link, h1]
  · rw [Api.delete_link_state]
    simp [Api.delete_link, h2]
  · intro j1 hj1
    simp [Ex.delete_link, h1, hj1]
  · intro j2 hj2
    rw [Ex.delete_link_state_frame]
    simp [Ex.delete_link, h2, hj2]

/-- Witness for C7 (amended): a concrete double delete on the main
client, with bodies that are not JSON at all, still returns success then
a 404-classified failure. -/
theorem c7_delete_twice_witness :
    (Api.delete_link ⟨some "elk_k", none, none, none⟩ "s"
      (.resp ⟨200, none, "gone"⟩)).outcome = .ok () ∧
    (Api.delete_link (Api.delete_link ⟨some "elk_k", none, none, none⟩ "s"
        (.resp ⟨200, none, "gone"⟩)).state "s"
      (.resp ⟨404, none, "nf"⟩)).outcome = .failed 404 .noBody :=
  ⟨(c7_delete_twice ⟨some "elk_k", none, none, none⟩ "s" ⟨200, none, "gone"⟩
      ⟨404, none, "nf"⟩ rfl rfl).1,
   (c7_delete_twice ⟨some "elk_k", none, none, none⟩ "s" ⟨200, none, "gone"⟩
      ⟨404, none, "nf"⟩ rfl rfl).2.1⟩

/-- C8: constructing a client with a truthy email and password and no
API key immediately issues exactly one HTTP request, a
`POST /auth/login`, and on a 200 response of the documented shape the
new client already holds the returned session token; constructing with
an API key set, or with an incomplete email/password pair, issues no
HTTP request at all and leaves `jwt_token` unset. -/
theorem c8_init_autologin (ak em pw : Option String) (net : NetOutcome)
    (hak : ∀ s, ak = some s → s ≠ "") (hem : ∀ s, em = some s → s ≠ "")
    (hpw : ∀ s, pw = some s → s ≠ "") :
    (ak = none → em.isSome = true → pw.isSome = true →
      (Api.initClient ak em pw net).2 =
        (Api.login ⟨none, none, em, pw⟩ none none net).requests ∧
      (Api.initClient ak em pw net).2.length = 1 ∧
      (∀ q ∈ (Api.initClient ak em pw net).2,
        q.method = "POST" ∧ q.endpoint = "/auth/login") ∧
      (∀ r data tok user, net = .resp r → r.status = 200 → r.jsonBody = some data →
        data.get "token" = some (.str tok) → data.get "user" = some user →
        (user.get "email").isSome = true → (user.get "plan").isSome = true →
        (Api.initClient ak em pw net).1.jwt_token = some tok)) ∧
    (ak.isSome = true →
      (Api.initClient ak em pw net).2 = [] ∧
      (Api.initClient ak em pw net).1.jwt_token = none) ∧
    (em = none ∨ pw = none →
      (Api.initClient ak em pw net).2 = [] ∧
      (Api.initClient ak em pw net).1.jwt_token = none) := by
  refine ⟨?_, ?_, ?_⟩
  · rintro rfl hem2 hpw2
    obtain ⟨e, rfl⟩ := Option.isSome_iff_exists.mp hem2
    obtain ⟨p, rfl⟩ := Option.isSome_iff_exists.mp hpw2
    have he : (e == "") = false := by
      simpa [beq_eq_false_iff_ne] using hem e rfl
    have hp : (p == "") = false := by
      simpa [beq_eq_false_iff_ne] using hpw p rfl
    have hcond : (truthyS (some e) && truthyS (some p) && !truthyS none) = true := by
      simp [truthyS, he, hp]
    refine ⟨?_, ?_, ?_, ?_⟩
    · simp [Api.initClient, hcond]
    · simp [Api.initClient, hcond, Api.login]
    · intro q hq
      simp [Api.initClient, hcond, Api.login] at hq
      simp [hq]
    · rintro r data tok user rfl h200 hbody htok huser hemail hplan
      simp [Api.initClient, hcond, Api.login, h200, hbody, htok, huser, hemail, hplan,
        Jv.render]
  · intro hak2
    obtain ⟨k, rfl⟩ := Option.isSome_iff_exists.mp hak2
    have hk : (k == "") = false := by
      simpa [beq_eq_false_iff_ne] using hak k rfl
    have hcond : (truthyS em && truthyS pw && !truthyS (some k)) = false := by
      simp [truthyS, hk]
    simp [Api.initClient, hcond]
  · intro hor
    have hcond : (truthyS em && truthyS pw && !truthyS ak) = false := by
      rcases hor with h | h <;> subst h <;> simp [truthyS]
    simp [Api.initClient, hcond]

/-- Witness for C8: auto-login on construction with email/password, and
no request at all when an API key is supplied. -/
theorem c8_init_autologin_witness :
    (Api.initClient none (some "u@x.io") (some "pw")
      (.resp ⟨200, some (.obj [("token", .str "tokZ"),
        ("user", .obj [("email", .str "u@x.io"), ("plan", .str "pro")])]), "raw"⟩)).1.jwt_token
      = some "tokZ" ∧
    (Api.initClient (some "elk_k") (some "u@x.io") (some "pw")
      (.resp ⟨200, some (.obj [("token", .str "tokZ"),
        ("user", .obj [("email", .str "u@x.io"), ("plan", .str "pro")])]), "raw"⟩)).2 = [] :=
  ⟨((c8_init_autologin none (some "u@x.io") (some "pw")
      (.resp ⟨200, some (.obj [("token", .str "tokZ"),
        ("user", .obj [("email", .str "u@x.io"), ("plan", .str "pro")])]), "raw"⟩)
      (fun s hs => by cases hs)
      (fun s hs h => absurd (Option.some.inj hs) (by simp [h]))
      (fun s hs h => absurd (Option.some.inj hs) (by simp [h]))).1 rfl rfl rfl).2.2.2
    ⟨200, some (.obj [("token", .str "tokZ"),
      ("user", .obj [("email", .str "u@x.io"), ("plan", .str "pro")])]), "raw"⟩
    (.obj [("token", .str "tokZ"),
      ("user", .obj [("email", .str "u@x.io"), ("plan", .str "pro")])])
    "tokZ" (.obj [("email", .str "u@x.io"), ("plan", .str "pro")])
    rfl rfl rfl rfl rfl rfl rfl,
   ((c8_init_autologin (some "elk_k") (some "u@x.io") (some "pw")
      (.resp ⟨200, some (.obj [("token", .str "tokZ"),
        ("user", .obj [("email", .str "u@x.io"), ("plan", .str "pro")])]), "raw"⟩)
      (fun s hs h => absurd (Option.some.inj hs) (by simp [h]))
      (fun s hs h => absurd (Option.some.inj hs) (by simp [h]))
      (fun s hs h => absurd (Option.some.inj hs) (by simp [h]))).2.1 rfl).1⟩

/-- C9: when `jwt_token` is unset, `generate_api_key` returns `None`
without issuing any HTTP request — even when an `api_key` is present
(the client state is arbitrary here, so in particular its `api_key`
field may be set); when `jwt_token` holds a token, the single request it
issues carries `Authorization: Bearer <jwt_token>` — the session token,
never the API key — again for every value of `api_key`. -/
theorem c9_generate_key_auth (c : Client) (nm : String) (days : Int) (net : NetOutcome) :
    (c.jwt_token = none → Api.generate_api_key c nm days net = ⟨c, [], .refused⟩) ∧
    (∀ t, c.jwt_token = some t → t ≠ "" →
      (Api.generate_api_key c nm days net).requests.length = 1 ∧
      ∀ q ∈ (Api.generate_api_key c nm days net).requests,
        lookupHeader q.headers "Authorization" = some ("Bearer " ++ t)) := by
  constructor
  · intro h
    simp [Api.generate_api_key, h, truthyS]
  · intro t ht hne
    have htr : truthyS c.jwt_token = true := by
      simp [ht, truthyS, beq_eq_false_iff_ne, hne]
    constructor
    · simp [Api.generate_api_key, htr]
    · intro q hq
      simp [Api.generate_api_key, htr] at hq
      simp [hq, ht, lookupHeader]

/-- Witness for C9: a client holding both an API key and a session token
issues exactly one request, and it sends the session token. -/
theorem c9_generate_key_auth_witness :
    (Api.generate_api_key ⟨some "elk_k", some "jwt_t", none, none⟩ "n" 365
      (.resp ⟨201, some (.obj [("api_key", .str "elk_new")]), "raw"⟩)).requests.length = 1 ∧
    lookupHeader ((Api.generate_api_key ⟨some "elk_k", some "jwt_t", none, none⟩ "n" 365
        (.resp ⟨201, some (.obj [("api_key", .str "elk_new")]), "raw"⟩)).requests.headD
        ⟨"", "", [], none, none⟩).headers "Authorization" = some ("Bearer " ++ "jwt_t") :=
  ⟨((c9_generate_key_auth ⟨some "elk_k", some "jwt_t", none, none⟩ "n" 365
      (.resp ⟨201, some (.obj [("api_key", .str "elk_new")]), "raw"⟩)).2
     "jwt_t" rfl (by decide)).1,
   ((c9_generate_key_auth ⟨some "elk_k", some "jwt_t", none, none⟩ "n" 365
      (.resp ⟨201, some (.obj [("api_key", .str "elk_new")]), "raw"⟩)).2
     "jwt_t" rfl (by decide)).2 _ (by simp [Api.generate_api_key, truthyS])⟩

/-! Helper lemmas for the bulk-create loop. -/

theorem Jv.truthy_of_get {j : Jv} {k : String} (h : (j.get k).isSome = true) :
    j.truthy = true := by
  cases j with
  | obj fields =>
    cases fields with
    | nil => simp [Jv.get, lookupJv] at h
    | cons kv rest => simp [Jv.truthy]
  | null => simp [Jv.get] at h
  | bool b => simp [Jv.get] at h
  | num n => simp [Jv.get] at h
  | str s => simp [Jv.get] at h
  | arr xs => simp [Jv.get] at h

theorem goodShortenOutcome_resp (net : NetOutcome) (h : goodShortenOutcome net = true) :
    ∃ r j, net = .resp r ∧ r.jsonBody = some j := by
  cases net with
  | raise m => simp [goodShortenOutcome] at h
  | resp r =>
    cases hb : r.jsonBody with
    | none => simp [goodShortenOutcome, hb] at h
    | some j => exact ⟨r, j, rfl, hb⟩

theorem Api.shorten_good (c : Client) (url cs gid : Jv) (kwargs : List (String × Jv))
    (r : HttpResponse) (j : Jv) (hb : r.jsonBody = some j)
    (hgood : goodShortenOutcome (.resp r) = true) :
    (r.status = 201 ∧ (Api.shorten c url cs gid kwargs (.resp r)).outcome = .ok j ∧
      (j.get "slug").isSome = true ∧ (j.get "short_url").isSome = true) ∨
    (r.status ≠ 201 ∧
      (Api.shorten c url cs gid kwargs (.resp r)).outcome = .failed r.status (.jsonOf j)) := by
  by_cases h201 : r.status = 201
  · left
    simp only [goodShortenOutcome, hb, h201, if_pos, Bool.and_eq_true] at hgood
    refine ⟨h201, ?_, hgood.1, hgood.2⟩
    simp [Api.shorten, h201, hb, hgood.2]
  · right
    exact ⟨h201, by simp [Api.shorten, h201, hb]⟩

theorem Api.bulkAux_spec (links : List (List (String × Jv))) :
    ∀ (c : Client) (script : Nat → NetOutcome) (i : Nat),
      (∀ j, j < links.length → goodShortenOutcome (script (i + j)) = true) →
      ∃ entries succ fail,
        (Api.bulkAux c links script i).2.2 = .ok (entries, succ, fail) ∧
        entries.length = links.length ∧
        succ + fail = links.length ∧
        ∀ j, j < links.length →
          ∃ e, entries.get? j = some e ∧ entryMatches (script (i + j)) e := by
  induction links with
  | nil =>
    intro c script i h
    exact ⟨[], 0, 0, rfl, rfl, rfl, fun j hj => absurd hj (by simp)⟩
  | cons ld rest ih =>
    intro c script i h
    have h0 : goodShortenOutcome (script i) = true := by simpa using h 0 (by simp)
    obtain ⟨r, jv, hnet, hbody⟩ := goodShortenOutcome_resp (script i) h0
    rw [hnet] at h0
    have hrest : ∀ j, j < rest.length → goodShortenOutcome (script (i + 1 + j)) = true := by
      intro j hj
      have hx := h (j + 1) (by simpa using Nat.succ_lt_succ hj)
      rwa [show i + (j + 1) = i + 1 + j by omega] at hx
    obtain ⟨entries, succ, fail, hok, hlen, hsum, hidx⟩ := ih c script (i + 1) hrest
    have hsg := Api.shorten_good c ((lookupJv ld "url").getD .null)
      ((lookupJv ld "custom_slug").getD .null) ((lookupJv ld "group_id").getD .null)
      (ld.filter (fun kv => !(kv.1 == "url" || kv.1 == "custom_slug" || kv.1 == "group_id")))
      r jv hbody h0
    rcases hsg with ⟨h201, hout, hslug, hshort⟩ | ⟨h201, hout⟩
    · obtain ⟨sv, hsv⟩ := Option.isSome_iff_exists.mp hslug
      obtain ⟨shv, hshv⟩ := Option.isSome_iff_exists.mp hshort
      have htr : jv.truthy = true := Jv.truthy_of_get hshort
      refine ⟨.obj [("success", .bool true), ("slug", sv), ("short_url", shv),
          ("destination", (lookupJv ld "url").getD .null)] :: entries,
        succ + 1, fail, ?_, by simp [hlen], by simp [hsum]; omega, ?_⟩
      · simp only [Api.bulkAux, hnet, hout, htr, if_pos, Api.shorten_state, hsv, hshv, hok]
      · intro j hj
        cases j with
        | zero =>
          refine ⟨_, rfl, Or.inl ⟨r, jv, by simpa using hnet, h201, hbody, rfl, ?_, ?_⟩⟩
          · rw [hsv]; rfl
          · rw [hshv]; rfl
        | succ j2 =>
          have hj2 : j2 < rest.length := by simpa using Nat.lt_of_succ_lt_succ hj
          obtain ⟨e, he, hm⟩ := hidx j2 hj2
          refine ⟨e, by simpa using he, ?_⟩
          rwa [show i + (j2 + 1) = i + 1 + j2 by omega]
    · refine ⟨.obj [("success", .bool false),
          ("destination", (lookupJv ld "url").getD .null),
          ("error", .str "Failed to create")] :: entries,
        succ, fail + 1, ?_, by simp [hlen], by simp [hsum]; omega, ?_⟩
      · simp only [Api.bulkAux, hnet, hout, Api.shorten_state, hok]
      · intro j hj
        cases j with
        | zero =>
          exact ⟨_, rfl, Or.inr ⟨r, by simpa using hnet, h201, rfl, rfl⟩⟩
        | succ j2 =>
          have hj2 : j2 < rest.length := by simpa using Nat.lt_of_succ_lt_succ hj
          obtain ⟨e, he, hm⟩ := hidx j2 hj2
          refine ⟨e, by simpa using he, ?_⟩
          rwa [show i + (j2 + 1) = i + 1 + j2 by omega]

/-- C10: for every input list of link dicts, and responses under which
each `shorten` call completes (valid-JSON bodies, with `slug` and
`short_url` present on the 201 successes), `bulk_create_links` returns a
result list of exactly the input length, in order, whose `i`-th entry
has `success = True` (with the returned slug and short URL) iff the
`i`-th `shorten` call got a 201 and `success = False` otherwise; the
successful and failed tallies sum to the input length, and a failed
`shorten` call never aborts the remaining iterations. -/
theorem c10_bulk_create (c : Client) (links : List (List (String × Jv)))
    (script : Nat → NetOutcome)
    (h : ∀ j, j < links.length → goodShortenOutcome (script j) = true) :
    ∃ entries,
      (Api.bulk_create_links c links script).results = .ok entries ∧
      entries.length = links.length ∧
      (Api.bulk_create_links c links script).successful +
        (Api.bulk_create_links c links script).failed = links.length ∧
      ∀ j, j < links.length →
        ∃ e, entries.get? j = some e ∧ entryMatches (script j) e := by
  have h0 : ∀ j, j < links.length → goodShortenOutcome (script (0 + j)) = true := by
    intro j hj; simpa using h j hj
  obtain ⟨entries, succ, fail, hok, hlen, hsum, hidx⟩ := Api.bulkAux_spec links c script 0 h0
  refine ⟨entries, ?_, hlen, ?_, ?_⟩
  · simp [Api.bulk_create_links, hok]
  · simp [Api.bulk_create_links, hok, hsum]
  · intro j hj
    obtain ⟨e, he, hm⟩ := hidx j hj
    exact ⟨e, he, by simpa using hm⟩

/-- Witness for C10: a two-element bulk create in which the first
`shorten` succeeds with 201 and the second fails with 400 still tallies
both iterations. -/
theorem c10_bulk_create_witness :
    (Api.bulk_create_links ⟨some "elk_k", none, none, none⟩
      [[("url", .str "https://a")], [("url", .str "https://b")]]
      (fun i => if i = 0 then
        .resp ⟨201, some (.obj [("slug", .str "s1"), ("short_url", .str "https://go/s1")]), ""⟩
      else
        .resp ⟨400, some (.obj [("error", .str "Invalid URL")]), ""⟩)).successful +
    (Api.bulk_create_links ⟨some "elk_k", none, none, none⟩
      [[("url", .str "https://a")], [("url", .str "https://b")]]
      (fun i => if i = 0 then
        .resp ⟨201, some (.obj [("slug", .str "s1"), ("short_url", .str "https://go/s1")]), ""⟩
      else
        .resp ⟨400, some (.obj [("error", .str "Invalid URL")]), ""⟩)).failed = 2 := by
  obtain ⟨entries, hok, hlen, hsum, hidx⟩ :=
    c10_bulk_create ⟨some "elk_k", none, none, none⟩
      [[("url", .str "https://a")], [("url", .str "https://b")]]
      (fun i => if i = 0 then
        .resp ⟨201, some (.obj [("slug", .str "s1"), ("short_url", .str "https://go/s1")]), ""⟩
      else
        .resp ⟨400, some (.obj [("error", .str "Invalid URL")]), ""⟩)
      (by decide)
  simpa using hsum

end ELink


